import Mathlib

/-!
# Verification of the reddit-scraper ingestion pipeline

A shallow embedding of the repository's ingestion core:

* `DatabaseService` (src/unnamed/part_002): `savePost`, `updatePost`,
  `getPostById`, `createScrapingLog`, `updateSubredditLastScraped`;
* `RedditService` (src/src/reddit/reddit.service.ts): `formatPostData`,
  `scrapeSubreddit`, `getTopPosts`, `getNewPosts`, `searchPosts`,
  `scrapeAllSubreddits`, `scrapeTopPostsAllSubreddits`,
  `scrapeAllSubredditsHourly`, and the `trackedSubreddits` list.

The Supabase store is modelled as an explicit record of tables (`Db`);
asynchronous effects become explicit state passing. The HTTP fetch is an
`Except String (List RawPost)` parameter (the error carries `error.message`);
single-item persistence failures are injected through a `fails : String → Bool`
oracle giving the ids whose `savePost` call throws. Wall-clock instants are
`Int` parameters (epoch milliseconds). Each scraping entry point additionally
returns the ordered trace of its delay and outbound-request events.
-/

/-- A value as returned by supabase for a nullable column / an absent field of
a raw reddit API record. -/
abbrev JsOpt (α : Type) := Option α

/-- JavaScript `s || d` on a possibly-absent string: `undefined`/`null` and the
empty string are falsy. -/
def jsOrStr (o : Option String) (d : String) : String :=
  match o with
  | none => d
  | some s => if s = "" then d else s

/-- JavaScript `x || null` on a possibly-absent string (used by
`createScrapingLog` for `error_message`). -/
def jsStrOrNull (o : Option String) : Option String :=
  match o with
  | none => none
  | some s => if s = "" then none else some s

/-- JavaScript `n || null` on a possibly-absent number (used by
`createScrapingLog` for `duration_ms`): `undefined` and `0` are falsy. -/
def jsIntOrNull (o : Option Int) : Option Int :=
  match o with
  | none => none
  | some n => if n = 0 then none else some n

/-- One raw post record from the reddit listing API (`item.data` in the
scraping loops): the fields the pipeline reads, optional where the upstream
field may be absent or null. -/
structure RawPost where
  id : String
  title : String
  author : Option String
  subreddit : String
  score : Int
  upvote_ratio : Option Rat
  url : String
  created_utc : Int
  num_comments : Int
  selftext : Option String
  permalink : String
  thumbnail : Option String
  is_video : Option Bool
  domain : Option String
  link_flair_text : Option String
  deriving DecidableEq, Repr

/-- The canonical record built by `RedditService.formatPostData`. -/
structure PostData where
  id : String
  title : String
  author : String
  subreddit : String
  score : Int
  upvote_ratio : Option Rat
  url : String
  created_utc : Int
  num_comments : Int
  selftext : String
  permalink : String
  thumbnail : Option String
  is_video : Bool
  domain : Option String
  link_flair_text : Option String
  deriving DecidableEq, Repr

/-- `RedditService.formatPostData` (reddit.service.ts lines 646-664):
normalizes one raw post into the canonical shape handed to `savePost`. -/
def formatPostData (post : RawPost) : PostData :=
  { id := post.id
    title := post.title
    author := jsOrStr post.author "deleted"
    subreddit := post.subreddit
    score := post.score
    upvote_ratio := post.upvote_ratio
    url := post.url
    created_utc := post.created_utc
    num_comments := post.num_comments
    selftext := jsOrStr post.selftext ""
    permalink := post.permalink
    thumbnail := post.thumbnail
    is_video := post.is_video.getD false
    domain := post.domain
    link_flair_text := post.link_flair_text }

/-- One row of the `reddit_posts` table. `created_utc` is stored as
`new Date(postData.created_utc * 1000)`, kept here in epoch milliseconds;
`last_updated_at` is null until the first update. -/
structure DbPost where
  post_id : String
  title : String
  author : String
  subreddit : String
  score : Int
  upvote_ratio : Option Rat
  url : String
  created_utc : Int
  num_comments : Int
  selftext : String
  permalink : String
  thumbnail : Option String
  is_video : Bool
  domain : Option String
  link_flair_text : Option String
  last_updated_at : Option Int
  deriving DecidableEq, Repr

/-- One row of the `post_snapshots` table. -/
structure SnapshotRow where
  post_id : String
  score : Int
  num_comments : Int
  upvote_ratio : Option Rat
  snapshot_at : Int
  deriving DecidableEq, Repr

/-- One row of the `scraping_logs` table, as written by
`DatabaseService.createScrapingLog`. -/
structure ScrapingLogRow where
  subreddit : String
  scrape_type : String
  status : String
  posts_found : Nat
  posts_saved : Nat
  error_message : Option String
  duration_ms : Option Int
  completed_at : Int
  deriving DecidableEq, Repr

/-- One row of the `subreddits` configuration table (tracked-feed config). -/
structure SubredditRow where
  name : String
  display_name : String
  is_active : Bool
  last_scraped_at : Option Int
  deriving DecidableEq, Repr

/-- The Supabase store visible to the ingestion core: the four tables it
writes, each as an ordered list of rows (inserts append). -/
structure Db where
  posts : List DbPost
  snapshots : List SnapshotRow
  logs : List ScrapingLogRow
  subreddits : List SubredditRow
  deriving DecidableEq, Repr

/-- The empty store. -/
def Db.empty : Db := { posts := [], snapshots := [], logs := [], subreddits := [] }

/-- `DatabaseService.getPostById` (part_002 lines 106-118): select the single
`reddit_posts` row whose `post_id` matches, null when there is none. -/
def getPostById (db : Db) (postId : String) : Option DbPost :=
  db.posts.find? (fun p => p.post_id = postId)

/-- Modelled from the spec: the Snapshot Recorder (spec section 4.2) — the
storage layer appends one `post_snapshots` row per update event. The
SQL/trigger implementing it is not among the source files; only its consumer
`getPostSnapshots` and the comment "Update existing post and create snapshot"
in `savePost` (part_002 line 38) witness it. Per spec section 4.2 it records
the item's metrics at capture time, on the update path only. -/
def recordSnapshot (db : Db) (pd : PostData) (now : Int) : Db :=
  { db with
    snapshots := db.snapshots ++
      [{ post_id := pd.id
         score := pd.score
         num_comments := pd.num_comments
         upvote_ratio := pd.upvote_ratio
         snapshot_at := now }] }

/-- The row rewrite performed by `DatabaseService.updatePost`'s supabase
`update` (part_002 lines 81-91): on the rows matching `post_id`, overwrite
score, num_comments, upvote_ratio, selftext and set `last_updated_at = now`. -/
def updateRow (pd : PostData) (now : Int) (p : DbPost) : DbPost :=
  if p.post_id = pd.id then
    { p with
      score := pd.score
      num_comments := pd.num_comments
      upvote_ratio := pd.upvote_ratio
      selftext := pd.selftext
      last_updated_at := some now }
  else p

/-- `DatabaseService.updatePost` (part_002 lines 79-104): update the matching
`reddit_posts` row and (through the store's snapshot recorder, see
`recordSnapshot`) append one snapshot of the updated metrics. Returns the
updated store and the selected updated rows (supabase `.select()`). -/
def updatePost (db : Db) (pd : PostData) (now : Int) : Db × List DbPost :=
  let posts1 := db.posts.map (updateRow pd now)
  let db1 : Db := { db with posts := posts1 }
  (recordSnapshot db1 pd now, posts1.filter (fun p => p.post_id = pd.id))

/-- The freshly inserted `reddit_posts` row of `savePost`'s insert branch
(part_002 lines 43-64). -/
def insertedRow (pd : PostData) : DbPost :=
  { post_id := pd.id
    title := pd.title
    author := pd.author
    subreddit := pd.subreddit
    score := pd.score
    upvote_ratio := pd.upvote_ratio
    url := pd.url
    created_utc := pd.created_utc * 1000
    num_comments := pd.num_comments
    selftext := pd.selftext
    permalink := pd.permalink
    thumbnail := pd.thumbnail
    is_video := pd.is_video
    domain := pd.domain
    link_flair_text := pd.link_flair_text
    last_updated_at := none }

/-- `DatabaseService.savePost` (part_002 lines 32-77): look up the post by id;
when found, delegate to `updatePost` (update plus snapshot); otherwise insert
a new row. Returns the updated store and the returned rows. -/
def savePost (db : Db) (pd : PostData) (now : Int) : Db × List DbPost :=
  match getPostById db pd.id with
  | some _ => updatePost db pd now
  | none => ({ db with posts := db.posts ++ [insertedRow pd] }, [insertedRow pd])

/-- The input record of `DatabaseService.createScrapingLog`. -/
structure LogInput where
  subreddit : String
  scrapeType : String
  status : String
  postsFound : Nat
  postsSaved : Nat
  errorMessage : Option String
  durationMs : Option Int
  deriving DecidableEq, Repr

/-- `DatabaseService.createScrapingLog` (part_002 lines 346-377): insert one
`scraping_logs` row; `error_message` and `duration_ms` go through `|| null`,
`completed_at` is the call time. -/
def createScrapingLog (db : Db) (l : LogInput) (now : Int) : Db :=
  { db with
    logs := db.logs ++
      [{ subreddit := l.subreddit
         scrape_type := l.scrapeType
         status := l.status
         posts_found := l.postsFound
         posts_saved := l.postsSaved
         error_message := jsStrOrNull l.errorMessage
         duration_ms := jsIntOrNull l.durationMs
         completed_at := now }] }

/-- `DatabaseService.updateSubredditLastScraped` (part_002 lines 291-304):
set `last_scraped_at = now` on the matching `subreddits` row. -/
def updateSubredditLastScraped (db : Db) (name : String) (now : Int) : Db :=
  { db with
    subreddits := db.subreddits.map (fun s =>
      if s.name = name then { s with last_scraped_at := some now } else s) }

/-- An observable effect of the orchestrator's control flow: a `delay(ms)`
call or an outbound feed request (the axios GET for a feed). -/
inductive Ev where
  | delayMs (ms : Nat)
  | request (subreddit : String)
  deriving DecidableEq, Repr

/-- The `ScrapeResult` interface of reddit.service.ts (lines 195-203).
`posts` keeps the shape of the TypeScript `savedPosts` array: each element is
the row array returned by one successful `savePost` call. -/
structure ScrapeResult where
  subreddit : String
  totalPosts : Nat
  newPosts : Nat
  posts : List (List DbPost)
  duration : Int
  timeframe : Option String
  error : Option String
  deriving DecidableEq, Repr

/-- The per-item loop shared by `scrapeSubreddit`, `getTopPosts` and
`getNewPosts` (e.g. reddit.service.ts lines 247-259): for each raw item in
order, format it and try `savePost`; a throwing `savePost` (an id in `fails`)
is caught and skipped; otherwise the returned rows are pushed onto
`savedPosts` (a supabase row array is always truthy, so the `if (saved)`
guard never filters). -/
def processPosts (db : Db) (raws : List RawPost) (fails : String → Bool)
    (now : Int) : Db × List (List DbPost) :=
  match raws with
  | [] => (db, [])
  | raw :: rest =>
      let pd := formatPostData raw
      if fails pd.id then processPosts db rest fails now
      else
        let r := savePost db pd now
        let t := processPosts r.1 rest fails now
        (t.1, r.2 :: t.2)

/-- The body shared by the three persisting single-feed scrapers, abstracted
over the scrape-type string and the optional timeframe field of the result.
On fetch success: process the batch, touch the subreddit's last-scraped time,
write one success log and return the `ScrapeResult`. On fetch error: write one
error log with zero counts and re-throw. The trace is `delay(1000)` followed
by the outbound request. -/
def runFeedScrape (db : Db) (subredditName : String) (scrapeType : String)
    (tf : Option String) (fetch : Except String (List RawPost))
    (fails : String → Bool) (dur now : Int) :
    Db × Except String ScrapeResult × List Ev :=
  let tr : List Ev := [Ev.delayMs 1000, Ev.request subredditName]
  match fetch with
  | Except.error msg =>
      let db1 := createScrapingLog db
        { subreddit := subredditName, scrapeType := scrapeType, status := "error"
          postsFound := 0, postsSaved := 0, errorMessage := some msg
          durationMs := some dur } now
      (db1, Except.error msg, tr)
  | Except.ok raws =>
      let r := processPosts db raws fails now
      let db2 := updateSubredditLastScraped r.1 subredditName now
      let db3 := createScrapingLog db2
        { subreddit := subredditName, scrapeType := scrapeType, status := "success"
          postsFound := raws.length, postsSaved := r.2.length
          errorMessage := none, durationMs := some dur } now
      (db3,
       Except.ok
         { subreddit := subredditName, totalPosts := raws.length
           newPosts := r.2.length, posts := r.2, duration := dur
           timeframe := tf, error := none },
       tr)

/-- `RedditService.scrapeSubreddit` (reddit.service.ts lines 236-301): the
"hot" single-feed scrape. -/
def scrapeSubreddit (db : Db) (subredditName : String)
    (fetch : Except String (List RawPost)) (fails : String → Bool)
    (dur now : Int) : Db × Except String ScrapeResult × List Ev :=
  runFeedScrape db subredditName "hot" none fetch fails dur now

/-- `RedditService.getTopPosts` (reddit.service.ts lines 303-370): the
"top" single-feed scrape; the log's scrape type is `top_<timeframe>` and the
result carries the timeframe. -/
def getTopPosts (db : Db) (subredditName timeframe : String)
    (fetch : Except String (List RawPost)) (fails : String → Bool)
    (dur now : Int) : Db × Except String ScrapeResult × List Ev :=
  runFeedScrape db subredditName ("top_" ++ timeframe) (some timeframe)
    fetch fails dur now

/-- `RedditService.getNewPosts` (reddit.service.ts lines 372-434): the
"new" single-feed scrape. -/
def getNewPosts (db : Db) (subredditName : String)
    (fetch : Except String (List RawPost)) (fails : String → Bool)
    (dur now : Int) : Db × Except String ScrapeResult × List Ev :=
  runFeedScrape db subredditName "new" none fetch fails dur now

/-- One entry of `searchPosts`'s result list (reddit.service.ts
lines 448-458). -/
structure SearchRow where
  id : String
  title : String
  author : String
  subreddit : String
  score : Int
  url : String
  created_utc : Int
  num_comments : Int
  permalink : String
  deriving DecidableEq, Repr

/-- `RedditService.searchPosts` (reddit.service.ts lines 436-467): the search
mode. It persists nothing, writes no scraping log on either path, and
re-throws a fetch error. -/
def searchPosts (db : Db) (subredditName query : String)
    (fetch : Except String (List RawPost)) :
    Db × Except String (List SearchRow) × List Ev :=
  let tr : List Ev := [Ev.delayMs 1000, Ev.request subredditName]
  match fetch with
  | Except.error msg => (db, Except.error msg, tr)
  | Except.ok raws =>
      (db,
       Except.ok (raws.map (fun post =>
         { id := post.id, title := post.title
           author := jsOrStr post.author "deleted"
           subreddit := post.subreddit, score := post.score, url := post.url
           created_utc := post.created_utc, num_comments := post.num_comments
           permalink := post.permalink })),
       tr)

/-- `RedditService.trackedSubreddits` (reddit.service.ts lines 213-224): the
hard-coded tracked-feed list. -/
def trackedSubreddits : List String :=
  ["B2BSaas", "Business_Ideas", "Entrepreneur", "indiehackers", "Saas",
   "SaaSMarketing", "SaaS", "Startup_Ideas", "microsaas"]

/-- The error entry pushed by `scrapeAllSubreddits`'s catch branch
(reddit.service.ts lines 538-545); `scrapeTopPostsAllSubreddits` additionally
sets the timeframe. -/
def errorEntry (subreddit : String) (tf : Option String) (msg : String) :
    ScrapeResult :=
  { subreddit := subreddit, totalPosts := 0, newPosts := 0, posts := []
    duration := 0, timeframe := tf, error := some msg }

/-- The `{ total, results }` object returned by the manual batch scrapers. -/
structure BatchResult where
  total : Nat
  timeframe : Option String
  results : List ScrapeResult
  deriving DecidableEq, Repr

/-- The loop of `scrapeAllSubreddits` (reddit.service.ts lines 531-547) over
a feed list: try the feed; on success push its result and then delay 2000 ms;
on failure push an error entry (the delay sits inside the `try`, so it is
skipped after a failure). -/
def scrapeAllGo (fetches : String → Except String (List RawPost))
    (fails : String → Bool) (dur now : Int) (db : Db) :
    List String → Db × List ScrapeResult × List Ev
  | [] => (db, [], [])
  | name :: rest =>
      let r := scrapeSubreddit db name (fetches name) fails dur now
      match r.2.1 with
      | Except.ok res =>
          let t := scrapeAllGo fetches fails dur now r.1 rest
          (t.1, res :: t.2.1, (r.2.2 ++ [Ev.delayMs 2000]) ++ t.2.2)
      | Except.error msg =>
          let t := scrapeAllGo fetches fails dur now r.1 rest
          (t.1, errorEntry name none msg :: t.2.1, r.2.2 ++ t.2.2)

/-- `RedditService.scrapeAllSubreddits` (reddit.service.ts lines 527-553):
the manual batch scrape over the tracked list; every per-feed failure is
caught inside the loop, so the function itself never throws. -/
def scrapeAllSubreddits (db : Db)
    (fetches : String → Except String (List RawPost))
    (fails : String → Bool) (dur now : Int) : Db × BatchResult × List Ev :=
  let r := scrapeAllGo fetches fails dur now db trackedSubreddits
  (r.1, { total := r.2.1.length, timeframe := none, results := r.2.1 }, r.2.2)

/-- The loop of `scrapeTopPostsAllSubreddits` (reddit.service.ts
lines 559-576) over a feed list. -/
def scrapeTopAllGo (timeframe : String)
    (fetches : String → Except String (List RawPost))
    (fails : String → Bool) (dur now : Int) (db : Db) :
    List String → Db × List ScrapeResult × List Ev
  | [] => (db, [], [])
  | name :: rest =>
      let r := getTopPosts db name timeframe (fetches name) fails dur now
      match r.2.1 with
      | Except.ok res =>
          let t := scrapeTopAllGo timeframe fetches fails dur now r.1 rest
          (t.1, res :: t.2.1, (r.2.2 ++ [Ev.delayMs 2000]) ++ t.2.2)
      | Except.error msg =>
          let t := scrapeTopAllGo timeframe fetches fails dur now r.1 rest
          (t.1, errorEntry name (some timeframe) msg :: t.2.1, r.2.2 ++ t.2.2)

/-- `RedditService.scrapeTopPostsAllSubreddits` (reddit.service.ts
lines 555-583): the manual batch top-posts scrape. -/
def scrapeTopPostsAllSubreddits (db : Db) (timeframe : String)
    (fetches : String → Except String (List RawPost))
    (fails : String → Bool) (dur now : Int) : Db × BatchResult × List Ev :=
  let r := scrapeTopAllGo timeframe fetches fails dur now db trackedSubreddits
  (r.1,
   { total := r.2.1.length, timeframe := some timeframe, results := r.2.1 },
   r.2.2)

/-- `RedditService.scrapeAllSubredditsHourly` (reddit.service.ts
lines 474-488): the scheduled (cron) batch scrape; the same per-feed loop,
delays and catch structure as the manual batch, with the per-feed results
discarded. -/
def scrapeAllSubredditsHourly (db : Db)
    (fetches : String → Except String (List RawPost))
    (fails : String → Bool) (dur now : Int) : Db × List Ev :=
  let r := scrapeAllGo fetches fails dur now db trackedSubreddits
  (r.1, r.2.2)

/-! ## Basic store lemmas -/

theorem updateRow_post_id (pd : PostData) (now : Int) (p : DbPost) :
    (updateRow pd now p).post_id = p.post_id := by
  unfold updateRow; split <;> rfl

theorem savePost_fst_logs (db : Db) (pd : PostData) (now : Int) :
    (savePost db pd now).1.logs = db.logs := by
  cases h : getPostById db pd.id <;>
    simp [savePost, h, updatePost, recordSnapshot]

theorem savePost_fst_subreddits (db : Db) (pd : PostData) (now : Int) :
    (savePost db pd now).1.subreddits = db.subreddits := by
  cases h : getPostById db pd.id <;>
    simp [savePost, h, updatePost, recordSnapshot]

theorem processPosts_fst_logs (raws : List RawPost) :
    ∀ (db : Db) (fails : String → Bool) (now : Int),
      (processPosts db raws fails now).1.logs = db.logs := by
  induction raws with
  | nil => intro db fails now; rfl
  | cons raw rest ih =>
      intro db fails now
      cases hb : fails (formatPostData raw).id <;>
        simp [processPosts, hb, ih, savePost_fst_logs]

theorem processPosts_snd_length (raws : List RawPost) :
    ∀ (db : Db) (fails : String → Bool) (now : Int),
      (processPosts db raws fails now).2.length =
        raws.countP (fun raw => !(fails raw.id)) := by
  induction raws with
  | nil => intro db fails now; rfl
  | cons raw rest ih =>
      intro db fails now
      cases hb : fails raw.id <;>
        simp [processPosts, formatPostData, hb, ih, List.countP_cons]

/-! ## Concrete sample values -/

/-- A raw item with every optional field present. -/
def rawA : RawPost :=
  { id := "p1", title := "t", author := some "al", subreddit := "Saas",
    score := 10, upvote_ratio := some (mkRat 9 10), url := "u",
    created_utc := 1700000000, num_comments := 2, selftext := some "b",
    permalink := "pl", thumbnail := none, is_video := some false,
    domain := none, link_flair_text := none }

/-- A raw item whose author, selftext and is_video are absent. -/
def rawMissing : RawPost :=
  { id := "p2", title := "t2", author := none, subreddit := "Saas",
    score := 3, upvote_ratio := none, url := "u2", created_utc := 1700000100,
    num_comments := 0, selftext := none, permalink := "pl2", thumbnail := none,
    is_video := none, domain := none, link_flair_text := none }

/-- The canonical record of `rawA`. -/
def pdA : PostData := formatPostData rawA

/-- A store that already holds the item `p1` (first ingested at time 5). -/
def dbA : Db := (savePost Db.empty pdA 5).1

/-! ## Claim theorems -/

/-- C8: normalization maps a missing/deleted author to the literal "deleted",
a missing body text to the empty string, and a missing isVideo boolean to
false. -/
theorem formatPostData_defaults (post : RawPost) :
    (post.author = none → (formatPostData post).author = "deleted") ∧
    (post.selftext = none → (formatPostData post).selftext = "") ∧
    (post.is_video = none → (formatPostData post).is_video = false) := by
  refine ⟨fun h => ?_, fun h => ?_, fun h => ?_⟩ <;>
    simp [formatPostData, jsOrStr, h]

/-- Witness for C8 at a raw item missing all three fields. -/
theorem formatPostData_defaults_witness :
    rawMissing.author = none ∧ rawMissing.selftext = none ∧
    rawMissing.is_video = none ∧
    (formatPostData rawMissing).author = "deleted" ∧
    (formatPostData rawMissing).selftext = "" ∧
    (formatPostData rawMissing).is_video = false :=
  ⟨rfl, rfl, rfl, (formatPostData_defaults rawMissing).1 rfl,
   (formatPostData_defaults rawMissing).2.1 rfl,
   (formatPostData_defaults rawMissing).2.2 rfl⟩

/-- C1: ingesting a raw item whose id is already in the store persists an
update of the mutable fields (with `lastUpdatedAt` set to now) and appends
exactly one Snapshot of the updated metrics; no Snapshot is appended when the
item is first created. -/
theorem savePost_snapshot_on_update_only (db : Db) (pd : PostData) (now : Int) :
    ((getPostById db pd.id).isSome →
      (savePost db pd now).1.snapshots = db.snapshots ++
        [{ post_id := pd.id, score := pd.score, num_comments := pd.num_comments,
           upvote_ratio := pd.upvote_ratio, snapshot_at := now }] ∧
      ∀ p ∈ (savePost db pd now).1.posts, p.post_id = pd.id →
        p.score = pd.score ∧ p.num_comments = pd.num_comments ∧
        p.upvote_ratio = pd.upvote_ratio ∧ p.selftext = pd.selftext ∧
        p.last_updated_at = some now) ∧
    (getPostById db pd.id = none →
      (savePost db pd now).1.snapshots = db.snapshots) := by
  constructor
  · intro h
    rcases hx : getPostById db pd.id with _ | q
    · rw [hx] at h; simp at h
    refine ⟨by simp [savePost, hx, updatePost, recordSnapshot], ?_⟩
    intro p hp hid
    simp [savePost, hx, updatePost, recordSnapshot] at hp
    rcases hp with ⟨q', hq', rfl⟩
    by_cases hqq : q'.post_id = pd.id
    · simp [updateRow, hqq]
    · rw [updateRow_post_id] at hid; exact absurd hid hqq
  · intro h
    simp [savePost, h]

/-- Witness for C1: both branches at concrete stores. -/
theorem savePost_snapshot_on_update_only_witness :
    ((getPostById dbA pdA.id).isSome = true ∧
      (savePost dbA pdA 20).1.snapshots = dbA.snapshots ++
        [{ post_id := pdA.id, score := pdA.score,
           num_comments := pdA.num_comments, upvote_ratio := pdA.upvote_ratio,
           snapshot_at := 20 }]) ∧
    (getPostById Db.empty pdA.id = none ∧
      (savePost Db.empty pdA 20).1.snapshots = Db.empty.snapshots) :=
  ⟨⟨by decide, ((savePost_snapshot_on_update_only dbA pdA 20).1 (by decide)).1⟩,
   ⟨rfl, (savePost_snapshot_on_update_only Db.empty pdA 20).2 rfl⟩⟩

/-- C2 (code-bug evaluation): a single-feed scrape over a batch of N = 1 raw
items with zero persistence failures, where the single item's id `p1` is
already known to the store, returns `newPosts = 1` and includes the known item
in the saved-posts list: `savePost` returns a (truthy) row array on the update
path too, so the loop's `if (saved)` guard counts seen-again items as new,
contradicting the claim (and the service's own log line
"`savedPosts.length`/`posts.length` new posts"). -/
theorem scrapeSubreddit_counts_known_item_as_new :
    (getPostById dbA "p1").isSome = true ∧
    ((scrapeSubreddit dbA "Saas" (Except.ok [rawA]) (fun _ => false) 3 20).2.1.toOption.map
        (fun r => (r.totalPosts, r.newPosts, r.posts.length))) = some (1, 1, 1) := by
  exact ⟨by decide, by decide⟩

/-- Counterexample for C6: re-ingesting `p1` with entirely unchanged fields
(second sight at time 20 of the item first saved at time 5) still appends one
Snapshot (not zero) and changes the stored Item state (its `last_updated_at`
is bumped), because `savePost` delegates to `updatePost` unconditionally,
without comparing the mutable fields. -/
theorem savePost_reingest_unchanged_counterexample :
    ((getPostById dbA "p1").map
        (fun p => (p.score, p.num_comments, p.upvote_ratio, p.selftext)) =
      some (pdA.score, pdA.num_comments, pdA.upvote_ratio, pdA.selftext)) ∧
    (savePost dbA pdA 20).1.snapshots.length = dbA.snapshots.length + 1 ∧
    ¬ (savePost dbA pdA 20).1 = dbA := by
  refine ⟨by decide, by decide, by decide⟩

/-- Amended C6: re-ingesting the same raw item a second time with unchanged
fields yields the same Item state except that `last_updated_at` is set to the
second call's time, and exactly one Snapshot of the (unchanged) metrics is
appended by the second call — the pipeline updates and snapshots
unconditionally on every repeat sight. -/
theorem savePost_reingest_unchanged (db : Db) (pd : PostData) (t1 t2 : Int)
    (h : getPostById db pd.id = none) :
    (savePost (savePost db pd t1).1 pd t2).1.posts =
      (savePost db pd t1).1.posts.map
        (fun p => if p.post_id = pd.id then { p with last_updated_at := some t2 }
                  else p) ∧
    (savePost (savePost db pd t1).1 pd t2).1.snapshots =
      (savePost db pd t1).1.snapshots ++
        [{ post_id := pd.id, score := pd.score, num_comments := pd.num_comments,
           upvote_ratio := pd.upvote_ratio, snapshot_at := t2 }] ∧
    (savePost (savePost db pd t1).1 pd t2).1.logs = (savePost db pd t1).1.logs ∧
    (savePost (savePost db pd t1).1 pd t2).1.subreddits =
      (savePost db pd t1).1.subreddits := by
  have hall : ∀ p ∈ db.posts, ¬ (p.post_id = pd.id) := by
    intro p hp hpe
    have := List.find?_eq_none.mp h p hp
    simp [hpe] at this
  have h1 : (savePost db pd t1).1 =
      { db with posts := db.posts ++ [insertedRow pd] } := by
    simp [savePost, h]
  rw [h1]
  have hfind :
      getPostById { db with posts := db.posts ++ [insertedRow pd] } pd.id =
        some (insertedRow pd) := by
    simp only [getPostById, List.find?_append]
    have hnone : db.posts.find? (fun p => p.post_id = pd.id) = none := h
    rw [hnone]
    simp [insertedRow]
  have h2 : savePost { db with posts := db.posts ++ [insertedRow pd] } pd t2 =
      updatePost { db with posts := db.posts ++ [insertedRow pd] } pd t2 := by
    simp [savePost, hfind]
  rw [h2]
  refine ⟨?_, ?_, ?_, ?_⟩
  · simp only [updatePost, recordSnapshot]
    refine List.map_congr_left ?_
    intro p hp
    rcases List.mem_append.mp hp with hmem | hmem
    · simp [updateRow, hall p hmem]
    · simp only [List.mem_singleton] at hmem
      subst hmem
      simp [updateRow, insertedRow]
  · simp [updatePost, recordSnapshot]
  · simp [updatePost, recordSnapshot]
  · simp [updatePost, recordSnapshot]

/-- Witness for the amended C6 at the concrete item `p1`. -/
theorem savePost_reingest_unchanged_witness :
    getPostById Db.empty pdA.id = none ∧
    (savePost (savePost Db.empty pdA 5).1 pdA 20).1.snapshots =
      (savePost Db.empty pdA 5).1.snapshots ++
        [{ post_id := pdA.id, score := pdA.score,
           num_comments := pdA.num_comments, upvote_ratio := pdA.upvote_ratio,
           snapshot_at := 20 }] :=
  ⟨rfl, (savePost_reingest_unchanged Db.empty pdA 5 20 rfl).2.1⟩

/-- C7: exactly one Item per id — a store whose ids are pairwise distinct
keeps them distinct through any `savePost`; the first sight of an id appends
exactly the new Item (its `created_utc` fixed from the upstream creation
time); every subsequent sight leaves id, title, author, feed name, permalink,
url and `created_utc` of every stored Item unchanged. -/
theorem savePost_one_item_per_id (db : Db) (pd : PostData) (now : Int)
    (h : (db.posts.map DbPost.post_id).Nodup) :
    ((savePost db pd now).1.posts.map DbPost.post_id).Nodup ∧
    (getPostById db pd.id = none →
      (savePost db pd now).1.posts = db.posts ++ [insertedRow pd]) ∧
    ((getPostById db pd.id).isSome →
      (savePost db pd now).1.posts.map
          (fun p => (p.post_id, p.title, p.author, p.subreddit, p.permalink,
                     p.url, p.created_utc)) =
        db.posts.map
          (fun p => (p.post_id, p.title, p.author, p.subreddit, p.permalink,
                     p.url, p.created_utc))) := by
  rcases hx : getPostById db pd.id with _ | q
  · have hnotin : pd.id ∉ db.posts.map DbPost.post_id := by
      intro hin
      rcases List.mem_map.mp hin with ⟨p, hp, hpe⟩
      exact List.find?_eq_none.mp hx p hp (by simp [hpe])
    refine ⟨?_, fun _ => by simp [savePost, hx], fun hs => by simp at hs⟩
    simp only [savePost, hx, List.map_append, List.nodup_append]
    refine ⟨h, by simp, ?_⟩
    intro a ha hb
    simp [insertedRow] at hb
    rw [hb] at ha
    exact hnotin ha
  · have hmapid :
        (savePost db pd now).1.posts.map DbPost.post_id =
          db.posts.map DbPost.post_id := by
      simp only [savePost, hx, updatePost, recordSnapshot, List.map_map]
      exact List.map_congr_left fun p _ => by
        simp [Function.comp, updateRow_post_id]
    refine ⟨?_, ?_, ?_⟩
    · rw [hmapid]; exact h
    · intro hnone
      cases hnone
    · intro _
      simp only [savePost, hx, updatePost, recordSnapshot, List.map_map]
      refine List.map_congr_left fun p _ => ?_
      simp only [Function.comp]
      unfold updateRow
      split <;> rfl

/-- Witness for C7: both the fresh-insert and the update branch at concrete
stores with pairwise-distinct ids. -/
theorem savePost_one_item_per_id_witness :
    ((dbA.posts.map DbPost.post_id).Nodup ∧
      ((savePost dbA pdA 20).1.posts.map DbPost.post_id).Nodup) ∧
    ((Db.empty.posts.map DbPost.post_id).Nodup ∧
      getPostById Db.empty pdA.id = none ∧
      (savePost Db.empty pdA 20).1.posts = Db.empty.posts ++ [insertedRow pdA]) :=
  ⟨⟨by decide, (savePost_one_item_per_id dbA pdA 20 (by decide)).1⟩,
   ⟨by decide, rfl, (savePost_one_item_per_id Db.empty pdA 20 (by decide)).2.1 rfl⟩⟩

/-- C5: when the fetch succeeds, a persistence failure on any single item is
caught and that item skipped, every remaining item is still attempted and
counted, and the run is logged with status "success" and the correspondingly
reduced saved count (`newPosts` counts exactly the items whose `savePost` did
not throw). -/
theorem scrapeSubreddit_isolates_item_failures (db : Db) (name : String)
    (raws : List RawPost) (fails : String → Bool) (dur now : Int) :
    (scrapeSubreddit db name (Except.ok raws) fails dur now).2.1 =
      Except.ok
        { subreddit := name, totalPosts := raws.length,
          newPosts := raws.countP (fun raw => !(fails raw.id)),
          posts := (processPosts db raws fails now).2, duration := dur,
          timeframe := none, error := none } ∧
    (scrapeSubreddit db name (Except.ok raws) fails dur now).1.logs =
      db.logs ++
        [{ subreddit := name, scrape_type := "hot", status := "success",
           posts_found := raws.length,
           posts_saved := raws.countP (fun raw => !(fails raw.id)),
           error_message := none, duration_ms := jsIntOrNull (some dur),
           completed_at := now }] := by
  constructor
  · simp [scrapeSubreddit, runFeedScrape, processPosts_snd_length]
  · simp [scrapeSubreddit, runFeedScrape, createScrapingLog,
      updateSubredditLastScraped, jsStrOrNull, processPosts_fst_logs,
      processPosts_snd_length]

/-- Counterexample for C3: a search-mode single-feed scrape writes zero
RunLog rows — on the error path (where the claim requires exactly one row
with status "error") and on the success path alike, `searchPosts` leaves the
store untouched. -/
theorem searchPosts_writes_no_runlog :
    (searchPosts Db.empty "Saas" "ai" (Except.error "boom")).1.logs.length ≠ 1 ∧
    (searchPosts Db.empty "Saas" "ai" (Except.error "boom")).1.logs.length = 0 ∧
    (searchPosts Db.empty "Saas" "ai" (Except.ok [rawA])).1.logs.length = 0 := by
  refine ⟨by decide, rfl, rfl⟩

/-- Amended C3: each of the three persisting single-feed scrapers (hot, top,
new) writes exactly one RunLog row per invocation, on the success and the
error path alike; on a fetch error that row has status "error",
`posts_found = 0`, `posts_saved = 0` and a non-empty `error_message` equal to
the fetch error's message, and the error is re-raised to the caller. The
search scraper writes no RunLog row and re-raises its fetch error. -/
theorem scrape_writes_one_runlog (db : Db) (name tf q msg : String)
    (raws : List RawPost) (fails : String → Bool) (dur now : Int)
    (hmsg : msg ≠ "") :
    ((scrapeSubreddit db name (Except.ok raws) fails dur now).1.logs.length =
      db.logs.length + 1) ∧
    ((getTopPosts db name tf (Except.ok raws) fails dur now).1.logs.length =
      db.logs.length + 1) ∧
    ((getNewPosts db name (Except.ok raws) fails dur now).1.logs.length =
      db.logs.length + 1) ∧
    ((scrapeSubreddit db name (Except.error msg) fails dur now).1.logs =
      db.logs ++
        [{ subreddit := name, scrape_type := "hot", status := "error",
           posts_found := 0, posts_saved := 0, error_message := some msg,
           duration_ms := jsIntOrNull (some dur), completed_at := now }]) ∧
    ((scrapeSubreddit db name (Except.error msg) fails dur now).2.1 =
      Except.error msg) ∧
    ((getTopPosts db name tf (Except.error msg) fails dur now).1.logs =
      db.logs ++
        [{ subreddit := name, scrape_type := "top_" ++ tf, status := "error",
           posts_found := 0, posts_saved := 0, error_message := some msg,
           duration_ms := jsIntOrNull (some dur), completed_at := now }]) ∧
    ((getTopPosts db name tf (Except.error msg) fails dur now).2.1 =
      Except.error msg) ∧
    ((getNewPosts db name (Except.error msg) fails dur now).1.logs =
      db.logs ++
        [{ subreddit := name, scrape_type := "new", status := "error",
           posts_found := 0, posts_saved := 0, error_message := some msg,
           duration_ms := jsIntOrNull (some dur), completed_at := now }]) ∧
    ((getNewPosts db name (Except.error msg) fails dur now).2.1 =
      Except.error msg) ∧
    ((searchPosts db name q (Except.error msg)).1 = db) ∧
    ((searchPosts db name q (Except.error msg)).2.1 = Except.error msg) ∧
    ((searchPosts db name q (Except.ok raws)).1 = db) := by
  refine ⟨?_, ?_, ?_, ?_, rfl, ?_, rfl, ?_, rfl, rfl, rfl, rfl⟩ <;>
    simp [scrapeSubreddit, getTopPosts, getNewPosts, runFeedScrape,
      createScrapingLog, updateSubredditLastScraped, jsStrOrNull,
      processPosts_fst_logs, hmsg]

/-- Witness for the amended C3 at concrete inputs (error message "boom"). -/
theorem scrape_writes_one_runlog_witness :
    ("boom" ≠ "") ∧
    (scrapeSubreddit Db.empty "Saas" (Except.error "boom") (fun _ => false) 3 20).1.logs =
      Db.empty.logs ++
        [{ subreddit := "Saas", scrape_type := "hot", status := "error",
           posts_found := 0, posts_saved := 0, error_message := some "boom",
           duration_ms := jsIntOrNull (some 3), completed_at := 20 }] ∧
    (scrapeSubreddit Db.empty "Saas" (Except.ok [rawA]) (fun _ => false) 3 20).1.logs.length =
      Db.empty.logs.length + 1 :=
  ⟨by decide,
   (scrape_writes_one_runlog Db.empty "Saas" "week" "ai" "boom" [rawA]
      (fun _ => false) 3 20 (by decide)).2.2.2.1,
   (scrape_writes_one_runlog Db.empty "Saas" "week" "ai" "boom" [rawA]
      (fun _ => false) 3 20 (by decide)).1⟩

/-! ## Batch-loop lemmas -/

theorem scrapeAllGo_results_map (fetches : String → Except String (List RawPost))
    (fails : String → Bool) (dur now : Int) (l : List String) :
    ∀ db : Db,
      (scrapeAllGo fetches fails dur now db l).2.1.map ScrapeResult.subreddit = l := by
  induction l with
  | nil => intro db; rfl
  | cons name rest ih =>
      intro db
      cases hf : fetches name <;>
        simp [scrapeAllGo, scrapeSubreddit, runFeedScrape, hf, errorEntry, ih]

theorem scrapeTopAllGo_results_map (timeframe : String)
    (fetches : String → Except String (List RawPost))
    (fails : String → Bool) (dur now : Int) (l : List String) :
    ∀ db : Db,
      (scrapeTopAllGo timeframe fetches fails dur now db l).2.1.map
        ScrapeResult.subreddit = l := by
  induction l with
  | nil => intro db; rfl
  | cons name rest ih =>
      intro db
      cases hf : fetches name <;>
        simp [scrapeTopAllGo, getTopPosts, runFeedScrape, hf, errorEntry, ih]

/-- The trace one feed contributes to a batch: the ~1 s pre-request delay, the
request itself, and — only when its fetch succeeds — the ~2 s inter-feed
delay. -/
def expectedFeedTrace (fetches : String → Except String (List RawPost))
    (s : String) : List Ev :=
  [Ev.delayMs 1000, Ev.request s] ++
    match fetches s with
    | Except.ok _ => [Ev.delayMs 2000]
    | Except.error _ => []

theorem scrapeAllGo_trace (fetches : String → Except String (List RawPost))
    (fails : String → Bool) (dur now : Int) (l : List String) :
    ∀ db : Db,
      (scrapeAllGo fetches fails dur now db l).2.2 =
        (l.map (expectedFeedTrace fetches)).flatten := by
  induction l with
  | nil => intro db; rfl
  | cons name rest ih =>
      intro db
      cases hf : fetches name <;>
        simp [scrapeAllGo, scrapeSubreddit, runFeedScrape, hf,
          expectedFeedTrace, ih]

theorem scrapeTopAllGo_trace (timeframe : String)
    (fetches : String → Except String (List RawPost))
    (fails : String → Bool) (dur now : Int) (l : List String) :
    ∀ db : Db,
      (scrapeTopAllGo timeframe fetches fails dur now db l).2.2 =
        (l.map (expectedFeedTrace fetches)).flatten := by
  induction l with
  | nil => intro db; rfl
  | cons name rest ih =>
      intro db
      cases hf : fetches name <;>
        simp [scrapeTopAllGo, getTopPosts, runFeedScrape, hf,
          expectedFeedTrace, ih]

/-- C4: a batch scrape (plain and top-posts variant) always returns a result
enumerating exactly one outcome per tracked feed, in order, whatever the
per-feed fetch outcomes and persistence failures are (in particular when
every feed fails); per-feed failures are caught inside the loop, so the batch
itself never throws — the model's return type carries no error. -/
theorem batch_enumerates_every_feed (db : Db)
    (fetches : String → Except String (List RawPost)) (fails : String → Bool)
    (dur now : Int) (timeframe : String) :
    ((scrapeAllSubreddits db fetches fails dur now).2.1.results.map
        ScrapeResult.subreddit = trackedSubreddits) ∧
    ((scrapeAllSubreddits db fetches fails dur now).2.1.results.length =
      trackedSubreddits.length) ∧
    ((scrapeAllSubreddits db fetches fails dur now).2.1.total =
      trackedSubreddits.length) ∧
    ((scrapeTopPostsAllSubreddits db timeframe fetches fails dur now).2.1.results.map
        ScrapeResult.subreddit = trackedSubreddits) ∧
    ((scrapeTopPostsAllSubreddits db timeframe fetches fails dur now).2.1.results.length =
      trackedSubreddits.length) ∧
    ((scrapeTopPostsAllSubreddits db timeframe fetches fails dur now).2.1.total =
      trackedSubreddits.length) := by
  have h1 := scrapeAllGo_results_map fetches fails dur now trackedSubreddits db
  have h2 := scrapeTopAllGo_results_map timeframe fetches fails dur now
    trackedSubreddits db
  have l1 : (scrapeAllGo fetches fails dur now db trackedSubreddits).2.1.length =
      trackedSubreddits.length := by
    have := congrArg List.length h1
    simpa using this
  have l2 : (scrapeTopAllGo timeframe fetches fails dur now db
        trackedSubreddits).2.1.length = trackedSubreddits.length := by
    have := congrArg List.length h2
    simpa using this
  exact ⟨h1, l1, l1, h2, l2, l2⟩

/-- Counterexample for C9: in a batch where every feed's fetch fails, the
trace contains no ~2 s inter-feed delay at all — although the tracked list
has 9 feeds and hence 8 pairs of consecutive feeds — because the
`delay(2000)` sits inside the `try` after the per-feed scrape and is skipped
when the feed failed. -/
theorem batch_skips_interfeed_delay_after_failure :
    (scrapeAllSubreddits Db.empty (fun _ => Except.error "x")
        (fun _ => false) 0 0).2.2.count (Ev.delayMs 2000) = 0 ∧
    trackedSubreddits.length = 9 := by
  refine ⟨by decide, by decide⟩

/-- Amended C9: every single-feed scrape (hot, top, new, search) performs the
fixed ~1 s delay before issuing its outbound feed request; a batch scrape
inserts the additional ~2 s delay after each feed whose scrape succeeded —
after a failed feed no inter-feed delay is inserted (the next feed still
begins with its own ~1 s pre-request delay). -/
theorem scrape_delay_discipline (db : Db) (name tf q : String)
    (fetch : Except String (List RawPost))
    (fetches : String → Except String (List RawPost)) (fails : String → Bool)
    (dur now : Int) :
    ((scrapeSubreddit db name fetch fails dur now).2.2 =
      [Ev.delayMs 1000, Ev.request name]) ∧
    ((getTopPosts db name tf fetch fails dur now).2.2 =
      [Ev.delayMs 1000, Ev.request name]) ∧
    ((getNewPosts db name fetch fails dur now).2.2 =
      [Ev.delayMs 1000, Ev.request name]) ∧
    ((searchPosts db name q fetch).2.2 =
      [Ev.delayMs 1000, Ev.request name]) ∧
    ((scrapeAllSubreddits db fetches fails dur now).2.2 =
      (trackedSubreddits.map (expectedFeedTrace fetches)).flatten) ∧
    ((scrapeTopPostsAllSubreddits db tf fetches fails dur now).2.2 =
      (trackedSubreddits.map (expectedFeedTrace fetches)).flatten) := by
  refine ⟨?_, ?_, ?_, ?_, ?_, ?_⟩
  · cases fetch <;> rfl
  · cases fetch <;> rfl
  · cases fetch <;> rfl
  · cases fetch <;> rfl
  · exact scrapeAllGo_trace fetches fails dur now trackedSubreddits db
  · exact scrapeTopAllGo_trace tf fetches fails dur now trackedSubreddits db

/-- The feed name of an outbound-request event. -/
def requestOf : Ev → Option String
  | Ev.request s => some s
  | Ev.delayMs _ => none

theorem expectedTrace_requests (fetches : String → Except String (List RawPost)) :
    ∀ l : List String,
      ((l.map (expectedFeedTrace fetches)).flatten.filterMap requestOf) = l := by
  intro l
  induction l with
  | nil => rfl
  | cons name rest ih =>
      cases hf : fetches name <;>
        simp [expectedFeedTrace, requestOf, hf, List.filterMap_append, ih]

/-- C10: every batch scrape iterates the hard-coded nine-name tracked list in
its declaration order — the result enumerates exactly those nine feeds in
order, for every store state (in particular, for every content of the
`subreddits` configuration table, which the batch never consults); the
scheduled hourly batch requests exactly the same nine feeds in the same
order. -/
theorem batch_scrapes_fixed_nine_feeds (db : Db)
    (fetches : String → Except String (List RawPost)) (fails : String → Bool)
    (dur now : Int) (timeframe : String) (cfg : List SubredditRow) :
    trackedSubreddits =
      ["B2BSaas", "Business_Ideas", "Entrepreneur", "indiehackers", "Saas",
       "SaaSMarketing", "SaaS", "Startup_Ideas", "microsaas"] ∧
    trackedSubreddits.length = 9 ∧
    ((scrapeAllSubreddits db fetches fails dur now).2.1.results.map
        ScrapeResult.subreddit = trackedSubreddits) ∧
    ((scrapeTopPostsAllSubreddits db timeframe fetches fails dur now).2.1.results.map
        ScrapeResult.subreddit = trackedSubreddits) ∧
    ((scrapeAllSubreddits { db with subreddits := cfg } fetches fails dur now).2.1.results.map
        ScrapeResult.subreddit =
      (scrapeAllSubreddits db fetches fails dur now).2.1.results.map
        ScrapeResult.subreddit) ∧
    ((scrapeAllSubredditsHourly db fetches fails dur now).2.filterMap requestOf =
      trackedSubreddits) := by
  refine ⟨rfl, rfl, scrapeAllGo_results_map fetches fails dur now trackedSubreddits db,
    scrapeTopAllGo_results_map timeframe fetches fails dur now trackedSubreddits db,
    ?_, ?_⟩
  · exact (scrapeAllGo_results_map fetches fails dur now trackedSubreddits
      { db with subreddits := cfg }).trans
      (scrapeAllGo_results_map fetches fails dur now trackedSubreddits db).symm
  · show (scrapeAllGo fetches fails dur now db trackedSubreddits).2.2.filterMap
        requestOf = trackedSubreddits
    rw [scrapeAllGo_trace fetches fails dur now trackedSubreddits db]
    exact expectedTrace_requests fetches trackedSubreddits
